import Mathlib

/-!
Verification of `src/github.com/getlantern/flashlight/client/handler.go`.

The Go file implements the CONNECT-intercepting data plane of the lantern
proxy client: `intercept` hijacks the client connection, registers it in the
global `clientConns` map, dials an outbound connection (directly or through
`detour.Dialer`), registers it in `conns`, and hands both sockets to
`pipeData`, which relays bytes in both directions with a `sync.WaitGroup`
gating the asynchronous close of the client socket.

Each definition below is a shallow embedding of the corresponding Go
function; Go standard-library routines used by the handler
(`strconv.Atoi`, `strconv.Itoa`, `net.SplitHostPort`) are modelled from
their standard-library sources.  Effects (registry mutation, socket close,
response writes) become an explicit event trace; `pipeData`'s two
concurrent tasks become a labelled transition system over interleavings.
-/

set_option autoImplicit false

namespace Lantern

instance exceptDecEq {ε α : Type} [DecidableEq ε] [DecidableEq α] :
    DecidableEq (Except ε α) := fun x y =>
  match x, y with
  | .ok a, .ok b =>
    if h : a = b then .isTrue (by rw [h]) else .isFalse (by simp [h])
  | .error a, .error b =>
    if h : a = b then .isTrue (by rw [h]) else .isFalse (by simp [h])
  | .ok _, .error _ => .isFalse (by simp)
  | .error _, .ok _ => .isFalse (by simp)

/-! ### Go standard library: `strconv.Atoi` -/

/-- Numeric value of a decimal digit character, `none` for non-digits. -/
def digitVal (c : Char) : Option Nat :=
  if '0' ≤ c ∧ c ≤ '9' then some (c.toNat - '0'.toNat) else none

/-- Accumulate decimal digits left-to-right; fails on a non-digit. -/
def parseDigitsAux : List Char → Nat → Option Nat
  | [], acc => some acc
  | c :: cs, acc =>
    match digitVal c with
    | some d => parseDigitsAux cs (acc * 10 + d)
    | none => none

/-- Parse a nonempty all-digit string; `none` when empty or any non-digit. -/
def parseDigits : List Char → Option Nat
  | [] => none
  | cs => parseDigitsAux cs 0

/-- Largest value of Go's 64-bit `int`. -/
def int64Max : Int := 2 ^ 63 - 1

/-- Model of Go `strconv.Atoi` (= `ParseInt(s, 10, 0)` on a 64-bit platform):
optional sign, at least one decimal digit, value within `int64` range;
any error (`ErrSyntax`, `ErrRange`) is `none`. -/
def goAtoi (s : String) : Option Int :=
  match s.toList with
  | '+' :: rest =>
    (parseDigits rest).bind fun n =>
      if (n : Int) ≤ int64Max then some (n : Int) else none
  | '-' :: rest =>
    (parseDigits rest).bind fun n =>
      if (n : Int) ≤ 2 ^ 63 then some (-(n : Int)) else none
  | l =>
    (parseDigits l).bind fun n =>
      if (n : Int) ≤ int64Max then some (n : Int) else none

/-! ### Go standard library: `strconv.Itoa` -/

/-- The character for a single decimal digit. -/
def digitChar : Nat → Char
  | 0 => '0' | 1 => '1' | 2 => '2' | 3 => '3' | 4 => '4'
  | 5 => '5' | 6 => '6' | 7 => '7' | 8 => '8' | _ => '9'

/-- Decimal digits of `n`, most significant first; `fuel` bounds recursion. -/
def natDigitsAux : Nat → Nat → List Char → List Char
  | 0, _, acc => acc
  | fuel + 1, n, acc =>
    if n < 10 then digitChar n :: acc
    else natDigitsAux fuel (n / 10) (digitChar (n % 10) :: acc)

/-- Model of Go `strconv.Itoa` on `Int`. -/
def goItoa (n : Int) : String :=
  if n < 0 then "-" ++ String.mk (natDigitsAux (n.natAbs + 1) n.natAbs [])
  else String.mk (natDigitsAux (n.natAbs + 1) n.natAbs [])

/-! ### Go standard library: `net.SplitHostPort` -/

/-- Index of the first occurrence of `c`, if any. -/
def firstIdx (c : Char) : List Char → Option Nat
  | [] => none
  | x :: xs => if x = c then some 0 else (firstIdx c xs).map (· + 1)

/-- Index of the last occurrence of `c`, if any (Go's `last` helper). -/
def lastIdx (c : Char) : List Char → Option Nat
  | [] => none
  | x :: xs =>
    match lastIdx c xs with
    | some i => some (i + 1)
    | none => if x = c then some 0 else none

/-- Model of Go `net.SplitHostPort` (net/ipsock.go).  The port starts after
the last colon; a leading `[` introduces a bracketed (IPv6) host; a
non-bracketed host may contain neither `:` nor `%`; stray brackets are
rejected.  Errors carry the Go error message. -/
def goSplitHostPort (hostport : String) : Except String (String × String) :=
  let cs := hostport.toList
  match lastIdx ':' cs with
  | none => .error "missing port in address"
  | some i =>
    if cs.headD ' ' = '[' then
      match firstIdx ']' cs with
      | none => .error "missing ']' in address"
      | some endIdx =>
        if endIdx + 1 = cs.length then .error "missing port in address"
        else if endIdx + 1 = i then
          if (firstIdx '[' (cs.drop 1)).isSome then
            .error "unexpected '[' in address"
          else if (firstIdx ']' (cs.drop (endIdx + 1))).isSome then
            .error "unexpected ']' in address"
          else .ok (String.mk ((cs.drop 1).take (endIdx - 1)),
                    String.mk (cs.drop (i + 1)))
        else if cs.getD (endIdx + 1) ' ' = ':' then
          .error "too many colons in address"
        else .error "missing port in address"
    else
      let host := cs.take i
      if (firstIdx ':' host).isSome then .error "too many colons in address"
      else if (firstIdx '%' host).isSome then
        .error "missing brackets in address"
      else if (firstIdx '[' cs).isSome then .error "unexpected '[' in address"
      else if (firstIdx ']' cs).isSome then .error "unexpected ']' in address"
      else .ok (String.mk host, String.mk (cs.drop (i + 1)))

/-! ### handler.go data model -/

/-- `httpConnectMethod` constant from handler.go. -/
def httpConnectMethod : String := "CONNECT"

/-- `connMeta` from handler.go; `establishedAt` is an abstract clock tick. -/
structure ConnMeta where
  hostAddr : String
  peerAddr : String
  establishedAt : Nat
  deriving DecidableEq, Repr

/-- A `map[net.Conn]connMeta` registry; connections are identified by an
abstract id (`net.Conn` object identity). -/
abbrev Registry := List (Nat × ConnMeta)

/-- Go map assignment `m[k] = v`: any existing binding for `k` is replaced. -/
def regInsert (r : Registry) (k : Nat) (m : ConnMeta) : Registry :=
  (k, m) :: r.filter (fun p => p.1 != k)

/-- Go `delete(m, k)`. -/
def regErase (r : Registry) (k : Nat) : Registry :=
  r.filter (fun p => p.1 != k)

/-- Whether key `k` is present in the registry. -/
def regMemKey (r : Registry) (k : Nat) : Bool :=
  r.any (fun p => p.1 == k)

/-- An inbound HTTP request as the handler sees it: method, `req.Host`, and
the value of the `X-Flashlight-QOS` header (`none` when absent). -/
structure Request where
  method : String
  host : String
  qosHeader : Option String

/-- Go `http.Header.Get`: the header value, `""` when the header is absent. -/
def headerGet (req : Request) : String :=
  req.qosHeader.getD ""

/-- The `Client` receiver: configuration plus its two external dialing
collaborators.  `balancerDialQOS` models `client.getBalancer().DialQOS`
(network, addr, qos ↦ connection id or error); `detourDialer` models
`detour.Dialer` (a wrapper around a base dial function). -/
structure Client where
  MinQOS : Int
  ProxyAll : Bool
  goosAndroid : Bool
  balancerDialQOS : String → String → Int → Except String Nat
  detourDialer : (String → String → Except String Nat) →
                 (String → String → Except String Nat)

/-- Outcomes of the `resp.(http.Hijacker).Hijack()` step: the sink does not
implement `http.Hijacker` (the type assertion panics), `Hijack` returns an
error, or it yields the raw client connection. -/
inductive HijackOutcome where
  | notHijacker
  | hijackErr (e : String)
  | hijacked (id : Nat)

/-- Environment of one `intercept` call: outcome of the hijack, the results
of the two `RemoteAddr().String()` calls (`none` = the call panics), whether
`respondOK`'s write succeeds, and the current time. -/
structure Env where
  hijack : HijackOutcome
  clientRemoteAddr : Option String
  outRemoteAddr : Option String
  respondOKOk : Bool
  now : Nat

/-- How one `intercept` call ends: a normal return, or a propagating panic. -/
inductive Outcome where
  | returned
  | panicked
  deriving DecidableEq, Repr

/-- Where a synthesized HTTP response is written: the still-HTTP-level
`http.ResponseWriter`, or the hijacked raw client socket. -/
inductive Sink where
  | httpResp
  | clientSock
  deriving DecidableEq, Repr

/-- Observable effects of `intercept`, in program order. -/
inductive Ev where
  | registerClient (id : Nat) (m : ConnMeta)
  | deregisterClient (id : Nat)
  | registerServer (id : Nat) (m : ConnMeta)
  | deregisterServer (id : Nat)
  | closeClient (id : Nat)
  | closeServer (id : Nat)
  | wroteResponse (s : Sink) (status : Nat) (body : String)
  | detourWrapped
  | dialAttempt (addr : String)
  | pipeStarted (clientId : Nat) (outId : Nat)
  | respondOKAttempt (ok : Bool)
  deriving DecidableEq, Repr

/-- The global mutable state of handler.go: the two registries
(`clientConns` and `conns`) plus the set of connection ids whose `Close()`
has returned. -/
structure GState where
  clientConns : Registry
  conns : Registry
  closed : List Nat
  deriving DecidableEq, Repr

/-- Effect of a single event on the global state. -/
def applyEv (s : GState) : Ev → GState
  | .registerClient id m => { s with clientConns := regInsert s.clientConns id m }
  | .deregisterClient id => { s with clientConns := regErase s.clientConns id }
  | .registerServer id m => { s with conns := regInsert s.conns id m }
  | .deregisterServer id => { s with conns := regErase s.conns id }
  | .closeClient id => { s with closed := id :: s.closed }
  | .closeServer id => { s with closed := id :: s.closed }
  | _ => s

/-- Replay an event trace over an initial global state. -/
def replay (s : GState) : List Ev → GState
  | [] => s
  | e :: es => replay (applyEv s e) es

/-! ### handler.go functions -/

/-- `targetQOS` (handler.go lines 146-157): the integer value of the
`X-Flashlight-QOS` header when present and parseable, else `client.MinQOS`. -/
def targetQOS (client : Client) (req : Request) : Int :=
  let requestedQOS := headerGet req
  if requestedQOS ≠ "" then
    match goAtoi requestedQOS with
    | some rqos => rqos
    | none => client.MinQOS
  else client.MinQOS

/-- `hostIncludingPort` (handler.go lines 216-223): `req.Host`, with
`":" + defaultPort` appended when `net.SplitHostPort` fails or yields an
empty port. -/
def hostIncludingPort (req : Request) (defaultPort : Int) : String :=
  match goSplitHostPort req.host with
  | .error _ => req.host ++ ":" ++ goItoa defaultPort
  | .ok (_, port) =>
    if port = "" then req.host ++ ":" ++ goItoa defaultPort else req.host

/-- The condition selecting the direct dial in handler.go line 110:
`runtime.GOOS == "android" || client.ProxyAll`. -/
def forceDirect (client : Client) : Bool :=
  client.goosAndroid || client.ProxyAll

/-- The base dial function `d` (handler.go lines 105-107): delegates to the
balancer with the resolved QoS class pinned. -/
def baseDial (client : Client) (req : Request) :
    String → String → Except String Nat :=
  fun _network addr => client.balancerDialQOS "tcp" addr (targetQOS client req)

/-- The dial function actually invoked (handler.go lines 110-114): `d`
itself when `forceDirect`, else `detour.Dialer(d)`. -/
def selectedDial (client : Client) (req : Request) :
    String → String → Except String Nat :=
  if forceDirect client then baseDial client req
  else client.detourDialer (baseDial client req)

/-- Dial-stage events: applying `detour.Dialer` to `d` (only when not
forced direct), then invoking the resulting function at `addr`. -/
def dialEvents (client : Client) (addr : String) : List Ev :=
  if forceDirect client then [.dialAttempt addr]
  else [.detourWrapped, .dialAttempt addr]

/-- `intercept` (handler.go lines 79-142), as outcome plus event trace.
Control flow, line by line:
* line 81: non-CONNECT method panics;
* line 89: `resp.(http.Hijacker)` panics when the sink is not a `Hijacker`;
  a `Hijack()` error writes 502 on the HTTP-level sink and returns;
* line 94: `clientConn.RemoteAddr().String()` is evaluated while building
  the `connMeta` — if it panics, the panic propagates before the map write
  and before the cleanup defer at line 96 is installed;
* lines 96-101 (defer, runs last): close client conn, then deregister it;
* lines 110-118: dial via `selectedDial`; on error write 502 with the error
  text onto the hijacked client socket and return (client defer still runs);
* lines 121-129: outbound `RemoteAddr().String()` guarded by `recover()` —
  a panic yields the empty string;
* lines 130-138: register the outbound conn; defer (runs first, LIFO):
  close outbound conn, then deregister it;
* line 141: `pipeData` (its internals are the transition system below; here
  it contributes the `pipeStarted` and `respondOKAttempt` events). -/
def intercept (client : Client) (req : Request) (env : Env) :
    Outcome × List Ev :=
  if req.method ≠ httpConnectMethod then (.panicked, [])
  else
    match env.hijack with
    | .notHijacker => (.panicked, [])
    | .hijackErr e =>
      (.returned,
        [.wroteResponse .httpResp 502 ("Unable to hijack connection: " ++ e)])
    | .hijacked clientId =>
      match env.clientRemoteAddr with
      | none => (.panicked, [])
      | some peer =>
        let addr := hostIncludingPort req 443
        match selectedDial client req "tcp" addr with
        | .error e =>
          (.returned,
            Ev.registerClient clientId ⟨req.host, peer, env.now⟩
              :: dialEvents client addr
              ++ [Ev.wroteResponse .clientSock 502
                    ("Unable to handle CONNECT request: " ++ e),
                  Ev.closeClient clientId, Ev.deregisterClient clientId])
        | .ok outId =>
          (.returned,
            Ev.registerClient clientId ⟨req.host, peer, env.now⟩
              :: dialEvents client addr
              ++ [Ev.registerServer outId
                    ⟨addr, (env.outRemoteAddr).getD "", env.now⟩,
                  Ev.pipeStarted clientId outId,
                  Ev.respondOKAttempt env.respondOKOk,
                  Ev.closeServer outId, Ev.deregisterServer outId,
                  Ev.closeClient clientId, Ev.deregisterClient clientId])

/-- Does an event read or write the server-side (`conns`) registry? -/
def touchesServerRegistry : Ev → Bool
  | .registerServer _ _ => true
  | .deregisterServer _ => true
  | _ => false

/-- Is the event the start of bidirectional piping? -/
def isPipeStarted : Ev → Bool
  | .pipeStarted _ _ => true
  | _ => false

/-- Is the event a synthesized HTTP response write? -/
def isWroteResponse : Ev → Bool
  | .wroteResponse _ _ _ => true
  | _ => false

/-- Is the event an application of the `detour.Dialer` wrapper? -/
def isDetourWrapped : Ev → Bool
  | .detourWrapped => true
  | _ => false

/-! ### `pipeData` (handler.go lines 161-186) as a transition system

`pipeData` spawns one goroutine (`io.Copy(connOut, clientConn)`; then
`wg.Wait()`; then `clientConn.Close()`) while the calling context runs
`err := respondOK(clientConn, req)`; `wg.Done()`; and then either logs the
error and returns, or runs `io.Copy(clientConn, connOut)` and returns.
The two tasks interleave arbitrarily; `wg` is the `sync.WaitGroup`
initialized to 1 by `wg.Add(1)`. -/

/-- Program counter of the spawned goroutine (lines 166-174). -/
inductive GPc where
  | copying   -- in io.Copy(connOut, clientConn)
  | waiting   -- at wg.Wait()
  | closing   -- at clientConn.Close()
  | done
  deriving DecidableEq, Repr

/-- Program counter of the calling context (lines 177-185). -/
inductive MPc where
  | responding  -- at err := respondOK(clientConn, req)
  | releasing   -- at wg.Done()
  | finishing   -- at the err check / io.Copy(clientConn, connOut)
  | returned
  deriving DecidableEq, Repr

/-- One `pipeData` invocation's state.  `responded = some b` records that
the success-response write attempt completed with success `b`;
`clientClosedByG` that the goroutine's `clientConn.Close()` has run;
`releases` how many times `wg.Done()` has been called;
`outToClientStarted` that the outbound→client copy was started;
`errorLogged` that `log.Errorf("Unable to respond OK: ...")` ran. -/
structure PState where
  wg : Nat
  g : GPc
  m : MPc
  responded : Option Bool
  clientClosedByG : Bool
  releases : Nat
  outToClientStarted : Bool
  errorLogged : Bool
  deriving DecidableEq, Repr

/-- Initial state: after `wg.Add(1)` and the `go func()` spawn. -/
def pinit : PState :=
  ⟨1, .copying, .responding, none, false, 0, false, false⟩

/-- Which task takes the next step. -/
inductive Lbl where
  | gstep
  | mstep
  deriving DecidableEq, Repr

/-- Small-step semantics of `pipeData`; `ok` is whether the success-response
write succeeds.  `none` means the chosen task cannot step (blocked at
`wg.Wait()` with a nonzero counter, or already finished). -/
def pstep (ok : Bool) (s : PState) : Lbl → Option PState
  | .gstep =>
    match s.g with
    | .copying => some { s with g := .waiting }
    | .waiting => if s.wg = 0 then some { s with g := .closing } else none
    | .closing => some { s with g := .done, clientClosedByG := true }
    | .done => none
  | .mstep =>
    match s.m with
    | .responding => some { s with m := .releasing, responded := some ok }
    | .releasing =>
      some { s with m := .finishing, wg := s.wg - 1, releases := s.releases + 1 }
    | .finishing =>
      if ok then some { s with m := .returned, outToClientStarted := true }
      else some { s with m := .returned, errorLogged := true }
    | .returned => none

/-- States reachable from `pinit` under arbitrary interleavings. -/
inductive Reach (ok : Bool) : PState → Prop where
  | init : Reach ok pinit
  | next (s : PState) (l : Lbl) (s' : PState) :
      Reach ok s → pstep ok s l = some s' → Reach ok s'

/-- The twelve states reachable in a `pipeData` run with response-write
success `ok`: the calling context determines `wg`, `responded`, `releases`
and the final flags; the goroutine may only pass `wg.Wait()` once `wg = 0`. -/
def reachSet (ok : Bool) : List PState :=
  [⟨1, .copying, .responding, none, false, 0, false, false⟩,
   ⟨1, .waiting, .responding, none, false, 0, false, false⟩,
   ⟨1, .copying, .releasing, some ok, false, 0, false, false⟩,
   ⟨1, .waiting, .releasing, some ok, false, 0, false, false⟩,
   ⟨0, .copying, .finishing, some ok, false, 1, false, false⟩,
   ⟨0, .waiting, .finishing, some ok, false, 1, false, false⟩,
   ⟨0, .closing, .finishing, some ok, false, 1, false, false⟩,
   ⟨0, .done, .finishing, some ok, true, 1, false, false⟩,
   ⟨0, .copying, .returned, some ok, false, 1, ok, !ok⟩,
   ⟨0, .waiting, .returned, some ok, false, 1, ok, !ok⟩,
   ⟨0, .closing, .returned, some ok, false, 1, ok, !ok⟩,
   ⟨0, .done, .returned, some ok, true, 1, ok, !ok⟩]

/-- `reachSet` is closed under `pstep`. -/
lemma pstep_closure : ∀ (ok : Bool), ∀ s ∈ reachSet ok,
    ∀ l ∈ [Lbl.gstep, Lbl.mstep],
    ((pstep ok s l).map (fun t => decide (t ∈ reachSet ok))).getD true
      = true := by
  intro ok
  cases ok <;> decide

/-- Every reachable `pipeData` state is in `reachSet`. -/
lemma reach_mem {ok : Bool} {s : PState} (h : Reach ok s) : s ∈ reachSet ok := by
  induction h with
  | init => cases ok <;> decide
  | next s l s' _hr hstep ih =>
    have hl : l ∈ [Lbl.gstep, Lbl.mstep] := by cases l <;> simp
    have hc := pstep_closure ok s ih l hl
    rw [hstep] at hc
    simpa using hc

/-! ### Concrete instances used by witnesses and counterexamples -/

/-- A client that dials directly (`ProxyAll = true`) and succeeds,
yielding connection id 2. -/
def cDirect : Client :=
  { MinQOS := 5, ProxyAll := true, goosAndroid := false,
    balancerDialQOS := fun _ _ _ => .ok 2,
    detourDialer := fun d => d }

/-- A direct-dialing client whose balancer dial fails. -/
def cDirectFail : Client :=
  { MinQOS := 5, ProxyAll := true, goosAndroid := false,
    balancerDialQOS := fun _ _ _ => .error "connection refused",
    detourDialer := fun d => d }

/-- A client that goes through `detour.Dialer` (here a transparent
wrapper) and succeeds. -/
def cDetour : Client :=
  { MinQOS := 5, ProxyAll := false, goosAndroid := false,
    balancerDialQOS := fun _ _ _ => .ok 2,
    detourDialer := fun d => d }

/-- A CONNECT request for `example.com` without a QoS header. -/
def reqEx : Request :=
  { method := "CONNECT", host := "example.com", qosHeader := none }

/-- A fully successful environment: hijack yields conn 1, both remote
addresses resolve, the success-response write succeeds. -/
def envFull : Env :=
  { hijack := .hijacked 1, clientRemoteAddr := some "10.0.0.1:50000",
    outRemoteAddr := some "93.184.216.34:443", respondOKOk := true, now := 0 }

/-- Like `envFull` but the success-response write fails. -/
def envRespFail : Env := { envFull with respondOKOk := false }

/-- Like `envFull` but `clientConn.RemoteAddr().String()` panics. -/
def envClientAddrPanic : Env := { envFull with clientRemoteAddr := none }

/-- Like `envFull` but `connOut.RemoteAddr().String()` panics. -/
def envOutAddrPanic : Env := { envFull with outRemoteAddr := none }

/-- Like `envFull` but the response sink does not implement
`http.Hijacker`. -/
def envNotHijacker : Env := { envFull with hijack := .notHijacker }

/-- Like `envFull` but `Hijack()` returns an error. -/
def envHijackErr : Env :=
  { envFull with hijack := .hijackErr "connection already hijacked" }

/-- Empty initial global state. -/
def g0e : GState := ⟨[], [], []⟩

/-! ### Registry lemmas -/

lemma filter_filter_self (p : Nat × ConnMeta → Bool) (l : Registry) :
    (l.filter p).filter p = l.filter p := by
  induction l with
  | nil => rfl
  | cons a t ih =>
    by_cases h : p a = true
    · simp [List.filter_cons, h, ih]
    · simp [List.filter_cons, h, ih]

lemma regErase_regInsert (r : Registry) (k : Nat) (m : ConnMeta) :
    regErase (regInsert r k m) k = regErase r k := by
  simp [regInsert, regErase, List.filter_cons, filter_filter_self]

lemma regErase_of_not_mem (r : Registry) (k : Nat)
    (h : regMemKey r k = false) : regErase r k = r := by
  induction r with
  | nil => rfl
  | cons a t ih =>
    simp [regMemKey, List.any_cons] at h
    simp [regErase, List.filter_cons, h.1]
    exact h.2

lemma regMemKey_regInsert (r : Registry) (k : Nat) (m : ConnMeta) :
    regMemKey (regInsert r k m) k = true := by
  simp [regInsert, regMemKey]

lemma goAtoi_empty : goAtoi "" = none := by decide

lemma lastIdx_eq_none (c : Char) (l : List Char)
    (h : l.all (fun x => x != c) = true) : lastIdx c l = none := by
  induction l with
  | nil => rfl
  | cons x xs ih =>
    simp [List.all_cons] at h
    simp [lastIdx, ih (by simp [List.all_eq_true]; exact h.2), h.1]

/-! ### Claim theorems -/

/-- **C2.** In the bidirectional pipe, in every reachable state of every
interleaving: the client socket has not been closed by the asynchronous
client→outbound task unless the success-response write attempt has
completed (whether it succeeded or failed) in the calling context, and the
calling context has released the response-sent signal (`wg.Done()`) at most
once, and exactly once by the time it returns — for either value of `ok`. -/
theorem pipe_close_after_respond (ok : Bool) (s : PState) (h : Reach ok s) :
    (s.clientClosedByG = true → s.responded = some ok)
    ∧ s.releases ≤ 1
    ∧ (s.m = .returned → s.releases = 1) := by
  have key : ∀ (b : Bool), ∀ t ∈ reachSet b,
      (t.clientClosedByG = true → t.responded = some b)
      ∧ t.releases ≤ 1
      ∧ (t.m = .returned → t.releases = 1) := by
    intro b
    cases b <;> decide
  exact key ok s (reach_mem h)

/-- Witness for C2: run the interleaving `m,m,m,g,g,g` of the
failing-response pipe to its terminal state and instantiate the theorem
there; the client close indeed followed the completed write attempt and the
signal was released exactly once. -/
theorem pipe_close_after_respond_witness :
    ((⟨0, .done, .returned, some false, true, 1, false, true⟩ :
        PState).clientClosedByG = true →
      (⟨0, .done, .returned, some false, true, 1, false, true⟩ :
        PState).responded = some false)
    ∧ (⟨0, .done, .returned, some false, true, 1, false, true⟩ :
        PState).releases ≤ 1
    ∧ ((⟨0, .done, .returned, some false, true, 1, false, true⟩ :
        PState).m = .returned →
      (⟨0, .done, .returned, some false, true, 1, false, true⟩ :
        PState).releases = 1) := by
  have h1 : Reach false ⟨1, .copying, .releasing, some false, false, 0, false, false⟩ :=
    Reach.next _ .mstep _ Reach.init (by decide)
  have h2 : Reach false ⟨0, .copying, .finishing, some false, false, 1, false, false⟩ :=
    Reach.next _ .mstep _ h1 (by decide)
  have h3 : Reach false ⟨0, .copying, .returned, some false, false, 1, false, true⟩ :=
    Reach.next _ .mstep _ h2 (by decide)
  have h4 : Reach false ⟨0, .waiting, .returned, some false, false, 1, false, true⟩ :=
    Reach.next _ .gstep _ h3 (by decide)
  have h5 : Reach false ⟨0, .closing, .returned, some false, false, 1, false, true⟩ :=
    Reach.next _ .gstep _ h4 (by decide)
  have h6 : Reach false ⟨0, .done, .returned, some false, true, 1, false, true⟩ :=
    Reach.next _ .gstep _ h5 (by decide)
  exact pipe_close_after_respond false _ h6

/-- **C6.** If writing the success response fails (`ok = false`): in every
reachable state of every interleaving the outbound→client copy has not been
started and the pipe function's return is preceded by the error report, any
state in which neither task can step has the asynchronous task finished and
the client socket closed by it, and — at the `intercept` level — on the
dial-success path with a failing response write both sockets are still
closed by their scheduled cleanups. -/
theorem respond_failure_pipe :
    (∀ s : PState, Reach false s →
      s.outToClientStarted = false
      ∧ (s.m = .returned → s.errorLogged = true)
      ∧ (pstep false s .gstep = none ∧ pstep false s .mstep = none →
          s.clientClosedByG = true ∧ s.g = .done))
    ∧ (∀ (client : Client) (req : Request) (env : Env) (cid oid : Nat)
        (peer : String),
        req.method = httpConnectMethod →
        env.hijack = .hijacked cid →
        env.clientRemoteAddr = some peer →
        selectedDial client req "tcp" (hostIncludingPort req 443) = .ok oid →
        env.respondOKOk = false →
        Ev.respondOKAttempt false ∈ (intercept client req env).2
        ∧ Ev.closeClient cid ∈ (intercept client req env).2
        ∧ Ev.closeServer oid ∈ (intercept client req env).2) := by
  constructor
  · intro s h
    have key : ∀ t ∈ reachSet false,
        t.outToClientStarted = false
        ∧ (t.m = .returned → t.errorLogged = true)
        ∧ (pstep false t .gstep = none ∧ pstep false t .mstep = none →
            t.clientClosedByG = true ∧ t.g = .done) := by decide
    exact key s (reach_mem h)
  · intro client req env cid oid peer hm hh hp hd hro
    simp only [intercept, hm, hh, hp, hd, hro]
    simp only [ne_eq, not_true_eq_false, if_false]
    cases hfd : forceDirect client <;> simp [dialEvents, hfd]

/-- Witness for C6: the terminal state of the failing-response pipe under
the schedule `m,m,m,g,g,g`, and the concrete failing-response tunnel
`cDirect`/`reqEx`/`envRespFail`. -/
theorem respond_failure_pipe_witness :
    ((⟨0, .done, .returned, some false, true, 1, false, true⟩ :
        PState).outToClientStarted = false
      ∧ ((⟨0, .done, .returned, some false, true, 1, false, true⟩ :
          PState).m = .returned →
        (⟨0, .done, .returned, some false, true, 1, false, true⟩ :
          PState).errorLogged = true))
    ∧ (Ev.respondOKAttempt false ∈ (intercept cDirect reqEx envRespFail).2
      ∧ Ev.closeClient 1 ∈ (intercept cDirect reqEx envRespFail).2
      ∧ Ev.closeServer 2 ∈ (intercept cDirect reqEx envRespFail).2) := by
  have h1 : Reach false ⟨1, .copying, .releasing, some false, false, 0, false, false⟩ :=
    Reach.next _ .mstep _ Reach.init (by decide)
  have h2 : Reach false ⟨0, .copying, .finishing, some false, false, 1, false, false⟩ :=
    Reach.next _ .mstep _ h1 (by decide)
  have h3 : Reach false ⟨0, .copying, .returned, some false, false, 1, false, true⟩ :=
    Reach.next _ .mstep _ h2 (by decide)
  have h4 : Reach false ⟨0, .waiting, .returned, some false, false, 1, false, true⟩ :=
    Reach.next _ .gstep _ h3 (by decide)
  have h5 : Reach false ⟨0, .closing, .returned, some false, false, 1, false, true⟩ :=
    Reach.next _ .gstep _ h4 (by decide)
  have h6 : Reach false ⟨0, .done, .returned, some false, true, 1, false, true⟩ :=
    Reach.next _ .gstep _ h5 (by decide)
  refine ⟨⟨(respond_failure_pipe.1 _ h6).1, (respond_failure_pipe.1 _ h6).2.1⟩, ?_⟩
  exact respond_failure_pipe.2 cDirect reqEx envRespFail 1 2 "10.0.0.1:50000"
    rfl rfl rfl rfl rfl

/-- **C3.** For every CONNECT request where the hijack succeeds but the
outbound dial fails with error `e`: a 502 response whose body carries the
dial error text is written on the hijacked client socket, no piping ever
starts, no event touches the server-side registry (which is left exactly as
it was), and the scheduled cleanup closes the client socket and removes it
from the client-side registry, restoring that registry as well. -/
theorem dial_failure_badgateway (client : Client) (req : Request) (env : Env)
    (g0 : GState) (cid : Nat) (peer e : String)
    (hm : req.method = httpConnectMethod)
    (hh : env.hijack = .hijacked cid)
    (hp : env.clientRemoteAddr = some peer)
    (hd : selectedDial client req "tcp" (hostIncludingPort req 443) = .error e)
    (hfc : regMemKey g0.clientConns cid = false) :
    (intercept client req env).1 = .returned
    ∧ Ev.wroteResponse .clientSock 502 ("Unable to handle CONNECT request: " ++ e)
        ∈ (intercept client req env).2
    ∧ (intercept client req env).2.all (fun ev => !touchesServerRegistry ev) = true
    ∧ (intercept client req env).2.all (fun ev => !isPipeStarted ev) = true
    ∧ (replay g0 (intercept client req env).2).conns = g0.conns
    ∧ (replay g0 (intercept client req env).2).clientConns = g0.clientConns
    ∧ cid ∈ (replay g0 (intercept client req env).2).closed := by
  simp only [intercept, hm, hh, hp, hd]
  simp only [ne_eq, not_true_eq_false, if_false]
  cases hfd : forceDirect client <;>
    simp [dialEvents, hfd, replay, applyEv, touchesServerRegistry,
      isPipeStarted, regErase_regInsert, regErase_of_not_mem _ _ hfc]

/-- Witness for C3: the concrete client `cDirectFail` whose balancer dial
fails with "connection refused", on `reqEx`/`envFull` from the empty
initial state. -/
theorem dial_failure_badgateway_witness :
    (intercept cDirectFail reqEx envFull).1 = .returned
    ∧ Ev.wroteResponse .clientSock 502
        ("Unable to handle CONNECT request: " ++ "connection refused")
        ∈ (intercept cDirectFail reqEx envFull).2
    ∧ (intercept cDirectFail reqEx envFull).2.all
        (fun ev => !touchesServerRegistry ev) = true
    ∧ (intercept cDirectFail reqEx envFull).2.all
        (fun ev => !isPipeStarted ev) = true
    ∧ (replay g0e (intercept cDirectFail reqEx envFull).2).conns = g0e.conns
    ∧ (replay g0e (intercept cDirectFail reqEx envFull).2).clientConns
        = g0e.clientConns
    ∧ 1 ∈ (replay g0e (intercept cDirectFail reqEx envFull).2).closed :=
  dial_failure_badgateway cDirectFail reqEx envFull g0e 1 "10.0.0.1:50000"
    "connection refused" rfl rfl rfl rfl rfl

/-- **C1 (counterexample).** In the fully successful tunnel
(`cDirect`/`reqEx`/`envFull`, hijack, dial and response write all succeed),
after the first six events — the sixth being the deferred
`connOut.Close()` of handler.go line 134 — the outbound connection's
`Close` has returned (it is in `closed`) yet it is still present in the
server-side registry `conns`: the deferred cleanup closes the socket
*before* deregistering it, so "no connection is ever present in a registry
after its `Close` has returned" is false, and with it the claimed
iff-invariant. -/
theorem closed_conn_still_registered_counterexample :
    regMemKey (replay g0e ((intercept cDirect reqEx envFull).2.take 6)).conns 2
      = true
    ∧ 2 ∈ (replay g0e ((intercept cDirect reqEx envFull).2.take 6)).closed := by
  decide

/-- **C1 (amended).** For a fully successful tunnel — hijack yields `cid`,
the selected dial yields `oid`, both fresh for the initial registries — the
boundary bookkeeping the claim describes does hold: both sockets are
registered in their respective registries at the instant piping starts, and
once `intercept` has returned (the pipe returned and the scheduled cleanups
ran) both registries are restored to their initial contents, neither socket
is registered any more, and both sockets' `Close` has returned.  (The
instantaneous "registered iff open" invariant is what fails, per the
counterexample: within each cleanup the `Close` returns before the
deregistration, and the asynchronously closed client socket may stay
registered until its cleanup runs.) -/
theorem registry_lifecycle_amended (client : Client) (req : Request)
    (env : Env) (g0 : GState) (cid oid : Nat) (peer : String)
    (hm : req.method = httpConnectMethod)
    (hh : env.hijack = .hijacked cid)
    (hp : env.clientRemoteAddr = some peer)
    (hd : selectedDial client req "tcp" (hostIncludingPort req 443) = .ok oid)
    (hfc : regMemKey g0.clientConns cid = false)
    (hfo : regMemKey g0.conns oid = false) :
    (intercept client req env).1 = .returned
    ∧ Ev.pipeStarted cid oid ∈ (intercept client req env).2
    ∧ regMemKey (replay g0 ((intercept client req env).2.takeWhile
        (fun ev => !isPipeStarted ev))).clientConns cid = true
    ∧ regMemKey (replay g0 ((intercept client req env).2.takeWhile
        (fun ev => !isPipeStarted ev))).conns oid = true
    ∧ (replay g0 (intercept client req env).2).clientConns = g0.clientConns
    ∧ (replay g0 (intercept client req env).2).conns = g0.conns
    ∧ regMemKey (replay g0 (intercept client req env).2).clientConns cid = false
    ∧ regMemKey (replay g0 (intercept client req env).2).conns oid = false
    ∧ cid ∈ (replay g0 (intercept client req env).2).closed
    ∧ oid ∈ (replay g0 (intercept client req env).2).closed := by
  simp only [intercept, hm, hh, hp, hd]
  simp only [ne_eq, not_true_eq_false, if_false]
  cases hfd : forceDirect client <;>
    simp [dialEvents, hfd, replay, applyEv, List.takeWhile, isPipeStarted,
      regMemKey_regInsert, regErase_regInsert,
      regErase_of_not_mem _ _ hfc, regErase_of_not_mem _ _ hfo, hfc, hfo]

/-- Witness for C1 (amended): the concrete fully successful tunnel
`cDirect`/`reqEx`/`envFull` from the empty initial state, with client
conn 1 and outbound conn 2. -/
theorem registry_lifecycle_witness :
    (intercept cDirect reqEx envFull).1 = .returned
    ∧ Ev.pipeStarted 1 2 ∈ (intercept cDirect reqEx envFull).2
    ∧ regMemKey (replay g0e ((intercept cDirect reqEx envFull).2.takeWhile
        (fun ev => !isPipeStarted ev))).clientConns 1 = true
    ∧ regMemKey (replay g0e ((intercept cDirect reqEx envFull).2.takeWhile
        (fun ev => !isPipeStarted ev))).conns 2 = true
    ∧ (replay g0e (intercept cDirect reqEx envFull).2).clientConns
        = g0e.clientConns
    ∧ (replay g0e (intercept cDirect reqEx envFull).2).conns = g0e.conns
    ∧ regMemKey (replay g0e (intercept cDirect reqEx envFull).2).clientConns 1
        = false
    ∧ regMemKey (replay g0e (intercept cDirect reqEx envFull).2).conns 2
        = false
    ∧ 1 ∈ (replay g0e (intercept cDirect reqEx envFull).2).closed
    ∧ 2 ∈ (replay g0e (intercept cDirect reqEx envFull).2).closed :=
  registry_lifecycle_amended cDirect reqEx envFull g0e 1 2 "10.0.0.1:50000"
    rfl rfl rfl rfl rfl rfl

/-- **C4 (counterexample).** A panic of the *client-side* remote-address
query is not survived: with hijack succeeded but
`clientConn.RemoteAddr().String()` panicking (handler.go line 94 has no
`recover`), the attempt aborts by panic with no registration at all — no
empty address is substituted, contradicting the claim that a remote-address
failure on either socket never crashes or aborts the attempt. -/
theorem client_remoteaddr_panic_counterexample :
    (intercept cDirect reqEx envClientAddrPanic).1 = .panicked
    ∧ (intercept cDirect reqEx envClientAddrPanic).2 = [] := by
  decide

/-- **C4 (amended).** Only the *outbound* remote-address query is
best-effort: if `connOut.RemoteAddr().String()` panics, the `recover` of
handler.go lines 121-129 substitutes the empty string and registration of
the outbound connection proceeds, the attempt returning normally.  The
client-side query of line 94 is unprotected: if it panics the attempt
aborts by panic before any registration. -/
theorem remoteaddr_best_effort_amended :
    (∀ (client : Client) (req : Request) (env : Env) (cid oid : Nat)
       (peer : String),
      req.method = httpConnectMethod →
      env.hijack = .hijacked cid →
      env.clientRemoteAddr = some peer →
      selectedDial client req "tcp" (hostIncludingPort req 443) = .ok oid →
      env.outRemoteAddr = none →
      (intercept client req env).1 = .returned
      ∧ Ev.registerServer oid ⟨hostIncludingPort req 443, "", env.now⟩
          ∈ (intercept client req env).2)
    ∧ (∀ (client : Client) (req : Request) (env : Env) (cid : Nat),
      req.method = httpConnectMethod →
      env.hijack = .hijacked cid →
      env.clientRemoteAddr = none →
      intercept client req env = (.panicked, [])) := by
  constructor
  · intro client req env cid oid peer hm hh hp hd houta
    simp only [intercept, hm, hh, hp, hd, houta]
    simp only [ne_eq, not_true_eq_false, if_false]
    cases hfd : forceDirect client <;> simp [dialEvents, hfd]
  · intro client req env cid hm hh hp
    simp only [intercept, hm, hh, hp]
    simp [ne_eq, not_true_eq_false, if_false]

/-- Witness for C4 (amended): outbound remote-address panic on
`envOutAddrPanic` still registers conn 2 with an empty peer address and
returns; client remote-address panic on `envClientAddrPanic` aborts. -/
theorem remoteaddr_best_effort_witness :
    ((intercept cDirect reqEx envOutAddrPanic).1 = .returned
      ∧ Ev.registerServer 2 ⟨hostIncludingPort reqEx 443, "", 0⟩
          ∈ (intercept cDirect reqEx envOutAddrPanic).2)
    ∧ intercept cDirect reqEx envClientAddrPanic = (.panicked, []) :=
  ⟨remoteaddr_best_effort_amended.1 cDirect reqEx envOutAddrPanic 1 2
      "10.0.0.1:50000" rfl rfl rfl rfl rfl,
   remoteaddr_best_effort_amended.2 cDirect reqEx envClientAddrPanic 1
      rfl rfl rfl⟩

/-- **C5 (counterexample).** When the response sink lacks hijack capability
the attempt does *not* terminate with a Bad-Gateway response: the
unchecked type assertion `resp.(http.Hijacker)` of handler.go line 89
panics, so the attempt aborts with no response written at all (the trace is
empty).  The claimed "Bad-Gateway-equivalent response ... not a crash"
therefore fails for this half of the hijack-failure case. -/
theorem hijack_incapable_counterexample :
    (intercept cDirect reqEx envNotHijacker).1 = .panicked
    ∧ (intercept cDirect reqEx envNotHijacker).2.all
        (fun ev => !isWroteResponse ev) = true
    ∧ (intercept cDirect reqEx envNotHijacker).2 = [] := by
  decide

/-- **C5 (amended).** When `Hijack()` itself returns an error, the attempt
terminates normally with exactly one 502 response, carrying the hijack
error text, written on the still-HTTP-level sink, and no registry is ever
touched (the global state is unchanged).  When the sink does not implement
`http.Hijacker` at all, the type assertion panics and the attempt aborts
with no response and no registry entry. -/
theorem hijack_failure_amended :
    (∀ (client : Client) (req : Request) (env : Env) (g0 : GState)
       (e : String),
      req.method = httpConnectMethod →
      env.hijack = .hijackErr e →
      intercept client req env
        = (.returned,
           [.wroteResponse .httpResp 502 ("Unable to hijack connection: " ++ e)])
      ∧ replay g0 (intercept client req env).2 = g0)
    ∧ (∀ (client : Client) (req : Request) (env : Env),
      req.method = httpConnectMethod →
      env.hijack = .notHijacker →
      intercept client req env = (.panicked, [])) := by
  constructor
  · intro client req env g0 e hm hh
    simp [intercept, hm, hh, replay, applyEv]
  · intro client req env hm hh
    simp [intercept, hm, hh]

/-- Witness for C5 (amended): the concrete erroring hijack `envHijackErr`
and the concrete non-hijackable sink `envNotHijacker`. -/
theorem hijack_failure_witness :
    (intercept cDirect reqEx envHijackErr
        = (.returned,
           [.wroteResponse .httpResp 502
              ("Unable to hijack connection: " ++ "connection already hijacked")])
      ∧ replay g0e (intercept cDirect reqEx envHijackErr).2 = g0e)
    ∧ intercept cDirect reqEx envNotHijacker = (.panicked, []) :=
  ⟨hijack_failure_amended.1 cDirect reqEx envHijackErr g0e
      "connection already hijacked" rfl rfl,
   hijack_failure_amended.2 cDirect reqEx envNotHijacker rfl rfl⟩

/-- **C7.** Dial-strategy selection.  When `forceDirect` holds (android
platform or `ProxyAll`), the base dial function is used unwrapped and the
fallback wrapper is never invoked — the whole run of `intercept` is
insensitive to the `detourDialer` collaborator and its trace records no
wrapper application, on any path.  When `forceDirect` does not hold, the
wrapper receives the base dial function, and any attempt that reaches the
dialing stage applies it exactly once.  A failure of the selected dial
propagates as a dial error: a 502 carrying the error text on the hijacked
client socket. -/
theorem dial_strategy_selection :
    (∀ (client : Client) (req : Request) (env : Env),
      forceDirect client = true →
      selectedDial client req = baseDial client req
      ∧ (∀ w, intercept { client with detourDialer := w } req env
            = intercept client req env)
      ∧ ((intercept client req env).2.filter isDetourWrapped).length = 0)
    ∧ (∀ (client : Client) (req : Request) (env : Env) (cid : Nat)
        (peer : String),
      forceDirect client = false →
      selectedDial client req = client.detourDialer (baseDial client req)
      ∧ (req.method = httpConnectMethod → env.hijack = .hijacked cid →
         env.clientRemoteAddr = some peer →
         ((intercept client req env).2.filter isDetourWrapped).length = 1))
    ∧ (∀ (client : Client) (req : Request) (env : Env) (cid : Nat)
        (peer e : String),
      req.method = httpConnectMethod → env.hijack = .hijacked cid →
      env.clientRemoteAddr = some peer →
      selectedDial client req "tcp" (hostIncludingPort req 443) = .error e →
      (intercept client req env).1 = .returned
      ∧ Ev.wroteResponse .clientSock 502
          ("Unable to handle CONNECT request: " ++ e)
          ∈ (intercept client req env).2) := by
  refine ⟨?_, ?_, ?_⟩
  · intro client req env hfd
    have hfd' : ∀ w, forceDirect { client with detourDialer := w } = true := by
      intro w
      simpa [forceDirect] using hfd
    refine ⟨by simp [selectedDial, hfd], ?_, ?_⟩
    · intro w
      simp [intercept, selectedDial, baseDial, targetQOS, headerGet,
        dialEvents, hfd, hfd' w]
    · unfold intercept
      split
      · simp
      · split <;>
          try simp [isDetourWrapped]
        split
        · simp
        · split <;> simp [dialEvents, hfd, isDetourWrapped]
  · intro client req env cid peer hfd
    refine ⟨by simp [selectedDial, hfd], ?_⟩
    intro hm hh hp
    cases hsel : selectedDial client req "tcp" (hostIncludingPort req 443) <;>
      simp [intercept, hm, hh, hp, hsel, dialEvents, hfd, isDetourWrapped]
  · intro client req env cid peer e hm hh hp hd
    simp only [intercept, hm, hh, hp, hd]
    simp only [ne_eq, not_true_eq_false, if_false]
    cases hfd : forceDirect client <;> simp [dialEvents, hfd]

/-- Witness for C7: `cDirect` (forced direct — even a wrapper that would
fail every dial is ignored), `cDetour` (wrapper applied exactly once on the
concrete successful tunnel), and `cDirectFail` (dial failure propagated as
a 502 with the error text). -/
theorem dial_strategy_selection_witness :
    (intercept { cDirect with
        detourDialer := fun _ => fun _ _ => .error "detour" } reqEx envFull
      = intercept cDirect reqEx envFull)
    ∧ ((intercept cDirect reqEx envFull).2.filter isDetourWrapped).length = 0
    ∧ ((intercept cDetour reqEx envFull).2.filter isDetourWrapped).length = 1
    ∧ Ev.wroteResponse .clientSock 502
        ("Unable to handle CONNECT request: " ++ "connection refused")
        ∈ (intercept cDirectFail reqEx envFull).2 :=
  ⟨(dial_strategy_selection.1 cDirect reqEx envFull rfl).2.1 _,
   (dial_strategy_selection.1 cDirect reqEx envFull rfl).2.2,
   (dial_strategy_selection.2.1 cDetour reqEx envFull 1 "10.0.0.1:50000"
      rfl).2 rfl rfl rfl,
   (dial_strategy_selection.2.2 cDirectFail reqEx envFull 1 "10.0.0.1:50000"
      "connection refused" rfl rfl rfl rfl).2⟩

/-- **C8.** The QoS resolver: when the `X-Flashlight-QOS` header is present
and parses as a decimal integer its value is returned verbatim, with no
range validation beyond `Atoi` itself; when the header is absent or
unparseable the configured default (`MinQOS`) is returned.  `targetQOS` is
a total Lean function, so it never fails or panics.  Concretely: header
`"7"` yields `7`, header `"abc"` and an absent header yield the default. -/
theorem targetQOS_resolution :
    (∀ (client : Client) (req : Request) (v : String) (n : Int),
      req.qosHeader = some v → goAtoi v = some n → targetQOS client req = n)
    ∧ (∀ (client : Client) (req : Request),
      req.qosHeader = none → targetQOS client req = client.MinQOS)
    ∧ (∀ (client : Client) (req : Request) (v : String),
      req.qosHeader = some v → goAtoi v = none →
      targetQOS client req = client.MinQOS)
    ∧ targetQOS cDirect ⟨"CONNECT", "h", some "7"⟩ = 7
    ∧ targetQOS cDirect ⟨"CONNECT", "h", some "abc"⟩ = cDirect.MinQOS
    ∧ targetQOS cDirect ⟨"CONNECT", "h", none⟩ = cDirect.MinQOS := by
  refine ⟨?_, ?_, ?_, by decide, by decide, by decide⟩
  · intro client req v n h1 h2
    by_cases hv : v = ""
    · rw [hv, goAtoi_empty] at h2
      exact absurd h2 (by simp)
    · simp [targetQOS, headerGet, h1, hv, h2]
  · intro client req h1
    simp [targetQOS, headerGet, h1]
  · intro client req v h1 h2
    by_cases hv : v = "" <;> simp [targetQOS, headerGet, h1, hv, h2]

/-- Witness for C8: the three general clauses instantiated at header `"7"`
(yielding 7), the absent header, and header `"abc"` (both yielding the
default 5). -/
theorem targetQOS_resolution_witness :
    targetQOS cDirect ⟨"CONNECT", "h", some "7"⟩ = 7
    ∧ targetQOS cDirect reqEx = cDirect.MinQOS
    ∧ targetQOS cDirect ⟨"CONNECT", "h", some "abc"⟩ = cDirect.MinQOS :=
  ⟨targetQOS_resolution.1 cDirect ⟨"CONNECT", "h", some "7"⟩ "7" 7 rfl
      (by decide),
   targetQOS_resolution.2.1 cDirect reqEx rfl,
   targetQOS_resolution.2.2.1 cDirect ⟨"CONNECT", "h", some "abc"⟩ "abc" rfl
      (by decide)⟩

/-- **C9.** Address defaulting: a request host containing no colon resolves
to `host:defaultPort`, and a host that `SplitHostPort` splits with a
nonempty port resolves unchanged.  Concretely, `"example.com"` with default
port 443 resolves to `"example.com:443"` and `"example.com:8443"` is
unchanged. -/
theorem hostIncludingPort_defaulting :
    (∀ (req : Request) (d : Int),
      req.host.toList.all (fun c => c != ':') = true →
      hostIncludingPort req d = req.host ++ ":" ++ goItoa d)
    ∧ (∀ (req : Request) (d : Int) (h p : String),
      goSplitHostPort req.host = .ok (h, p) → p ≠ "" →
      hostIncludingPort req d = req.host)
    ∧ hostIncludingPort ⟨"CONNECT", "example.com", none⟩ 443
        = "example.com:443"
    ∧ hostIncludingPort ⟨"CONNECT", "example.com:8443", none⟩ 443
        = "example.com:8443" := by
  refine ⟨?_, ?_, by decide, by decide⟩
  · intro req d h
    have hli : lastIdx ':' req.host.data = none := by
      simpa [String.toList] using lastIdx_eq_none ':' req.host.toList h
    simp [hostIncludingPort, goSplitHostPort, hli]
  · intro req d h p hsp hp
    simp [hostIncludingPort, hsp, hp]

/-- Witness for C9: both general clauses instantiated at `"example.com"`
(no colon, port defaulted) and `"example.com:8443"` (already `host:port`,
unchanged). -/
theorem hostIncludingPort_defaulting_witness :
    hostIncludingPort ⟨"CONNECT", "example.com", none⟩ 443
      = "example.com" ++ ":" ++ goItoa 443
    ∧ hostIncludingPort ⟨"CONNECT", "example.com:8443", none⟩ 443
      = "example.com:8443" :=
  ⟨hostIncludingPort_defaulting.1 ⟨"CONNECT", "example.com", none⟩ 443
      (by decide),
   hostIncludingPort_defaulting.2.1 ⟨"CONNECT", "example.com:8443", none⟩ 443
      "example.com" "8443" (by decide) (by decide)⟩

/-- **C10.** When host:port splitting fails, or succeeds with an empty
port, the raw host string gets `":" + defaultPort` appended even if it
already contains colons: `"example.com:"` (split succeeds, empty port)
resolves to `"example.com::443"`, and the bare IPv6 literal `"::1"` (split
fails with "too many colons") resolves to `"::1:443"`. -/
theorem hostIncludingPort_colon_edge :
    (∀ (req : Request) (d : Int) (e : String),
      goSplitHostPort req.host = .error e →
      hostIncludingPort req d = req.host ++ ":" ++ goItoa d)
    ∧ (∀ (req : Request) (d : Int) (h : String),
      goSplitHostPort req.host = .ok (h, "") →
      hostIncludingPort req d = req.host ++ ":" ++ goItoa d)
    ∧ hostIncludingPort ⟨"CONNECT", "example.com:", none⟩ 443
        = "example.com::443"
    ∧ hostIncludingPort ⟨"CONNECT", "::1", none⟩ 443 = "::1:443" := by
  refine ⟨?_, ?_, by decide, by decide⟩
  · intro req d e hsp
    simp [hostIncludingPort, hsp]
  · intro req d h hsp
    simp [hostIncludingPort, hsp]

/-- Witness for C10: the general clauses instantiated at `"example.com:"`
(empty port) and `"::1"` (splitting fails). -/
theorem hostIncludingPort_colon_edge_witness :
    hostIncludingPort ⟨"CONNECT", "example.com:", none⟩ 443
      = "example.com:" ++ ":" ++ goItoa 443
    ∧ hostIncludingPort ⟨"CONNECT", "::1", none⟩ 443
      = "::1" ++ ":" ++ goItoa 443 :=
  ⟨hostIncludingPort_colon_edge.2.1 ⟨"CONNECT", "example.com:", none⟩ 443
      "example.com" (by decide),
   hostIncludingPort_colon_edge.1 ⟨"CONNECT", "::1", none⟩ 443
      "too many colons in address" (by decide)⟩

end Lantern
